import Mathlib

/-!
Shallow embedding of the label service of `nepal-indirex-backend`
(`src/src/index.ts`, class `LabelService`), together with proofs about it.

Modelling conventions:
* Database ids are `Nat`; the code's `BigInt`/string event ids become `Nat`
  directly (every id handled by the claims is a syntactically valid id).
* Event timestamps are seconds since the epoch (`Int`), dates are epoch
  milliseconds (`Int`); `Math.floor(date.getTime() / 1000)` is `Int.fdiv _ 1000`.
* Each service method's `try` block is a function into
  `Except TryError _`; the surrounding `catch` is a separate translation
  step into `Except AppError _`, mirroring the `instanceof`/`code` tests.
* A method that writes returns the updated database next to its DTO;
  an error leaves the database untouched (Prisma nested writes are atomic).
* The Prisma schema file of the repository is not part of `src/`.
  Modelled from the spec: the schema defines a uniqueness constraint on the
  event-label association (spec §4: "Fails with a conflict error if a
  uniqueness constraint on event-label association is violated"); the
  service's own message for that constraint, "Label already exists for one
  or more events", fixes its shape as: an event may be associated with at
  most one label.  The store raises Prisma error P2002 when a write would
  violate it.  Deleting a label cascades to its association rows.
-/

namespace NepalIndirex

/-- `AppError` from `middleware/errorHandler`: a message and an HTTP status. -/
structure AppError where
  message : String
  status : Nat
deriving DecidableEq, Repr

/-- An error raised inside a service method's `try` block: an `AppError`
thrown by the service code itself, a `PrismaClientKnownRequestError`
carrying its Prisma error code (`"P2002"`, `"P2025"`, ...), or a plain
JavaScript runtime error (such as the `RangeError` that
`BigInt(Math.min())` raises on an empty spread). -/
inductive TryError where
  | app : AppError → TryError
  | prismaKnown : String → TryError
  | js : String → TryError
deriving DecidableEq, Repr

/-- A row of the `event` table (the columns the service reads). -/
structure Event where
  id : Nat
  device_id : String
  timestamp : Int
  image_path : Option String
  type : String
deriving DecidableEq, Repr

/-- A row of the `label` table.  The seven type-specific sub-records are
modelled as optional opaque payloads: the service only creates, upserts and
returns them whole. -/
structure LabelRow where
  id : Nat
  label_type : String
  created_by : String
  created_at : Int
  start_time : Int
  end_time : Int
  notes : Option String
  song : Option String
  ad : Option String
  error : Option String
  program : Option String
  movie : Option String
  promo : Option String
  sports : Option String
deriving DecidableEq, Repr

/-- A row of the label-event association (join) table. -/
structure LabelEvent where
  label_id : Nat
  event_id : Nat
deriving DecidableEq, Repr

/-- The persistent store: devices, events, labels, label-event
associations, and the id the next created label receives. -/
structure DB where
  devices : List String
  events : List Event
  labels : List LabelRow
  labelEvents : List LabelEvent
  nextLabelId : Nat
deriving DecidableEq, Repr

/-- The assembled `Label` response DTO. -/
structure Label where
  id : Nat
  event_ids : List Nat
  label_type : String
  created_by : String
  created_at : Int
  start_time : Int
  end_time : Int
  notes : Option String
  image_paths : List (Option String)
  song : Option String
  ad : Option String
  error : Option String
  program : Option String
  movie : Option String
  promo : Option String
  sports : Option String
deriving DecidableEq, Repr

/-- `Math.min(...timestamps)` for the non-empty case (the empty case never
reaches this function: the service errors out first, see `createLabelTry`). -/
def jsMinList : List Int → Int
  | [] => 0
  | t :: ts => ts.foldl min t

/-- `Math.max(...timestamps)` for the non-empty case. -/
def jsMaxList : List Int → Int
  | [] => 0
  | t :: ts => ts.foldl max t

/-- `Math.ceil(total / limit)` for natural `total` and `limit ≥ 1`. -/
def jsCeilDiv (a b : Nat) : Nat := (a + b - 1) / b

/-- Comparator used by every `events.sort((a, b) => Number(a.timestamp) - Number(b.timestamp))`. -/
def tsLE (a b : Event) : Prop := a.timestamp ≤ b.timestamp

instance : DecidableRel tsLE := fun a b =>
  inferInstanceAs (Decidable (a.timestamp ≤ b.timestamp))

instance : IsTotal Event tsLE := ⟨fun a b => Int.le_total a.timestamp b.timestamp⟩

instance : IsTrans Event tsLE := ⟨fun _ _ _ h1 h2 => le_trans h1 h2⟩

/-- Sorting a list of events by ascending timestamp (JavaScript `Array.sort`
with the numeric-difference comparator; stable, as is insertion sort). -/
def sortEventsByTimestamp (l : List Event) : List Event :=
  List.insertionSort tsLE l

/-- Input of `createLabel` (`CreateLabel & { created_by }`). -/
structure CreateLabel where
  event_ids : List Nat
  label_type : String
  created_by : String
  notes : Option String
  song : Option String
  ad : Option String
  error : Option String
  program : Option String
  movie : Option String
  promo : Option String
  sports : Option String
deriving DecidableEq, Repr

/-- The event rows whose ids appear in `eventIds`
(`prisma.event.findMany({ where: { id: { in: eventIds } } })`). -/
def findEvents (db : DB) (eventIds : List Nat) : List Event :=
  db.events.filter (fun e => eventIds.contains e.id)

/-- Whether creating an association to each id of `eventIds` would violate
the uniqueness constraint on the association table, given the association
rows `assocs` already present (see the schema note in the file header). -/
def assocConflict (assocs : List LabelEvent) (eventIds : List Nat) : Bool :=
  eventIds.any (fun eid => assocs.any (fun le => le.event_id = eid))

/-- The label row `prisma.label.create` inserts: bounds from
`Math.min`/`Math.max` over the fetched timestamps, the sub-record of the
matching `label_type` branch (when its payload is supplied). -/
def createdRow (db : DB) (data : CreateLabel) (now : Int) : LabelRow :=
  let timestamps := (findEvents db data.event_ids).map (fun e => e.timestamp)
  { id := db.nextLabelId
    label_type := data.label_type
    created_by := data.created_by
    created_at := now
    start_time := jsMinList timestamps
    end_time := jsMaxList timestamps
    notes := data.notes
    song := if data.label_type = "song" then data.song else none
    ad := if data.label_type = "ad" then data.ad else none
    error := if data.label_type = "error" then data.error else none
    program := if data.label_type = "program" then data.program else none
    movie := if data.label_type = "movie" then data.movie else none
    promo := if data.label_type = "promo" then data.promo else none
    sports := if data.label_type = "sports" then data.sports else none }

/-- The store after a successful `createLabel`: the new row and one
association row per supplied event id. -/
def createdDB (db : DB) (data : CreateLabel) (now : Int) : DB :=
  { db with
    labels := db.labels ++ [createdRow db data now]
    labelEvents := db.labelEvents ++ data.event_ids.map (fun eid => ⟨db.nextLabelId, eid⟩)
    nextLabelId := db.nextLabelId + 1 }

/-- The DTO a successful `createLabel` returns: the created row's fields,
the supplied event ids, and the image paths of the fetched events sorted by
ascending timestamp. -/
def createdDTO (db : DB) (data : CreateLabel) (now : Int) : Label :=
  let newRow := createdRow db data now
  { id := newRow.id
    event_ids := data.event_ids
    label_type := newRow.label_type
    created_by := newRow.created_by
    created_at := newRow.created_at
    start_time := newRow.start_time
    end_time := newRow.end_time
    notes := newRow.notes
    image_paths :=
      (sortEventsByTimestamp (findEvents db data.event_ids)).map (fun e => e.image_path)
    song := newRow.song
    ad := newRow.ad
    error := newRow.error
    program := newRow.program
    movie := newRow.movie
    promo := newRow.promo
    sports := newRow.sports }

/-- The body of `LabelService.createLabel`'s `try` block.  `now` is the
store's `created_at` default for the new row. -/
def createLabelTry (db : DB) (data : CreateLabel) (now : Int) :
    Except TryError (Label × DB) :=
  if (findEvents db data.event_ids).length ≠ data.event_ids.length then
    Except.error (TryError.app ⟨"One or more events not found", 404⟩)
  else if (findEvents db data.event_ids).isEmpty then
    -- Math.min() of an empty spread is Infinity and BigInt(Infinity) throws
    Except.error (TryError.js "RangeError")
  else if assocConflict db.labelEvents data.event_ids then
    -- prisma.label.create with nested association creates
    Except.error (TryError.prismaKnown "P2002")
  else
    Except.ok (createdDTO db data now, createdDB db data now)

/-- `LabelService.createLabel`: the `try` body together with its `catch`
clause, which maps a Prisma P2002 to a 400 conflict and everything else
(including the `AppError`s thrown inside the `try`) to a generic 500. -/
def createLabel (db : DB) (data : CreateLabel) (now : Int) :
    Except AppError (Label × DB) :=
  match createLabelTry db data now with
  | Except.ok r => Except.ok r
  | Except.error (TryError.prismaKnown c) =>
      if c = "P2002" then
        Except.error ⟨"Label already exists for one or more events", 400⟩
      else
        Except.error ⟨"Failed to create label", 500⟩
  | Except.error _ => Except.error ⟨"Failed to create label", 500⟩

/-- Descending counterpart of `tsLE`, for `orderBy: { timestamp: 'desc' }`. -/
def tsGE (a b : Event) : Prop := b.timestamp ≤ a.timestamp

instance : DecidableRel tsGE := fun a b =>
  inferInstanceAs (Decidable (b.timestamp ≤ a.timestamp))

/-- Sorting a list of events by descending timestamp. -/
def sortEventsByTimestampDesc (l : List Event) : List Event :=
  List.insertionSort tsGE l

/-- Options of `getUnlabeledEvents` (`GetUnlabeledEventsOptions`); dates are
epoch milliseconds, `sort` is the optional `'asc' | 'desc'` string. -/
structure GetUnlabeledEventsOptions where
  page : Nat
  limit : Nat
  startDate : Option Int
  endDate : Option Int
  deviceId : Option String
  types : Option (List String)
  sort : Option String
deriving DecidableEq, Repr

/-- The `whereClause` of `getUnlabeledEvents`, as a predicate on one event:
no label association (`labels: { none: {} }`), the optional timestamp
bounds, the optional device filter and the optional type filter. -/
def eventMatchesUnlabeled (db : DB) (o : GetUnlabeledEventsOptions) (e : Event) : Bool :=
  db.labelEvents.all (fun le => le.event_id ≠ e.id) &&
  (match o.startDate with
   | some sd => decide (Int.fdiv sd 1000 ≤ e.timestamp)
   | none => true) &&
  (match o.endDate with
   | some ed => decide (e.timestamp ≤ Int.fdiv ed 1000)
   | none => true) &&
  (match o.deviceId with
   | some d => decide (e.device_id = d)
   | none => true) &&
  (match o.types with
   | some ts => if ts.length > 0 then ts.contains e.type else true
   | none => true)

/-- The paginated event listing returned by `getUnlabeledEvents`. -/
structure PagedEvents where
  events : List Event
  total : Nat
  totalPages : Nat
  currentPage : Nat
deriving DecidableEq, Repr

/-- `LabelService.getUnlabeledEvents`: filter, order, paginate and count.
Its `try` block only fails if the store itself fails, which the pure model
does not, so the result is total. -/
def getUnlabeledEvents (db : DB) (o : GetUnlabeledEventsOptions) : PagedEvents :=
  let matching := db.events.filter (eventMatchesUnlabeled db o)
  let ordered :=
    if o.sort = some "asc" then sortEventsByTimestamp matching
    else sortEventsByTimestampDesc matching
  { events := (ordered.drop ((o.page - 1) * o.limit)).take o.limit
    total := matching.length
    totalPages := jsCeilDiv matching.length o.limit
    currentPage := o.page }

/-- Options of `getLabels` (`GetLabelsOptions`); `startDate`/`endDate`
compare against `created_at` directly (epoch milliseconds). -/
structure GetLabelsOptions where
  page : Nat
  limit : Nat
  startDate : Option Int
  endDate : Option Int
  createdBy : Option String
  labelType : Option String
  deviceId : Option String
  sort : Option String
deriving DecidableEq, Repr

/-- Whether label `L` has at least one associated event whose `device_id`
is `d` (`events: { some: { event: { device_id: d } } }`). -/
def labelHasDeviceEvent (db : DB) (d : String) (L : LabelRow) : Bool :=
  db.labelEvents.any (fun le =>
    le.label_id = L.id && db.events.any (fun e => e.id = le.event_id && e.device_id = d))

/-- The `whereClause` of `getLabels`, as a predicate on one label row. -/
def labelMatches (db : DB) (o : GetLabelsOptions) (L : LabelRow) : Bool :=
  (match o.startDate with
   | some sd => decide (sd ≤ L.created_at)
   | none => true) &&
  (match o.endDate with
   | some ed => decide (L.created_at ≤ ed)
   | none => true) &&
  (match o.createdBy with
   | some c => decide (L.created_by = c)
   | none => true) &&
  (match o.labelType with
   | some t => decide (L.label_type = t)
   | none => true) &&
  (match o.deviceId with
   | some d => labelHasDeviceEvent db d L
   | none => true)

/-- Comparator on label rows by ascending `created_at`. -/
def createdLE (a b : LabelRow) : Prop := a.created_at ≤ b.created_at

instance : DecidableRel createdLE := fun a b =>
  inferInstanceAs (Decidable (a.created_at ≤ b.created_at))

/-- Comparator on label rows by descending `created_at`. -/
def createdGE (a b : LabelRow) : Prop := b.created_at ≤ a.created_at

instance : DecidableRel createdGE := fun a b =>
  inferInstanceAs (Decidable (b.created_at ≤ a.created_at))

/-- The association rows of label `L` in store order. -/
def assocRowsOf (db : DB) (labelId : Nat) : List LabelEvent :=
  db.labelEvents.filter (fun le => le.label_id = labelId)

/-- The event rows joined through a list of association rows (an `include`
of `event`; a dangling association contributes nothing). -/
def joinedEvents (db : DB) (assocs : List LabelEvent) : List Event :=
  assocs.filterMap (fun le => db.events.find? (fun e => e.id = le.event_id))

/-- Reshaping one included label row into the `Label` response DTO, as
`getLabels` does: `event_ids` from the association rows and `image_paths`
from the joined events sorted by ascending timestamp. -/
def labelToDTO (db : DB) (L : LabelRow) : Label :=
  let assocs := assocRowsOf db L.id
  { id := L.id
    event_ids := assocs.map (fun le => le.event_id)
    label_type := L.label_type
    created_by := L.created_by
    created_at := L.created_at
    start_time := L.start_time
    end_time := L.end_time
    notes := L.notes
    image_paths := (sortEventsByTimestamp (joinedEvents db assocs)).map (fun e => e.image_path)
    song := L.song
    ad := L.ad
    error := L.error
    program := L.program
    movie := L.movie
    promo := L.promo
    sports := L.sports }

/-- The paginated label listing returned by `getLabels`. -/
structure PagedLabels where
  labels : List Label
  total : Nat
  totalPages : Nat
  currentPage : Nat
deriving DecidableEq, Repr

/-- `LabelService.getLabels`: filter, order by `created_at`, paginate,
count, and reshape each row into the response DTO. -/
def getLabels (db : DB) (o : GetLabelsOptions) : PagedLabels :=
  let matching := db.labels.filter (labelMatches db o)
  let ordered :=
    if o.sort = some "asc" then List.insertionSort createdLE matching
    else List.insertionSort createdGE matching
  { labels := ((ordered.drop ((o.page - 1) * o.limit)).take o.limit).map (labelToDTO db)
    total := matching.length
    totalPages := jsCeilDiv matching.length o.limit
    currentPage := o.page }

/-- Input of `updateLabel` (`UpdateLabel`): every field optional; `notes`
distinguishes an omitted field (`none`) from an explicit `null`
(`some none`), matching the `!== undefined` / `?? null` tests. -/
structure UpdateLabel where
  event_ids : Option (List Nat)
  label_type : Option String
  notes : Option (Option String)
  song : Option String
  ad : Option String
  error : Option String
  program : Option String
  movie : Option String
  promo : Option String
  sports : Option String
deriving DecidableEq, Repr

/-- The sub-record `upsert` chain of `updateLabel`: a branch fires only when
`data.label_type` is present, names that sub-record's type, and the matching
payload was supplied; it then creates-or-replaces that one sub-record. -/
def applySubUpsert (L : LabelRow) (data : UpdateLabel) : LabelRow :=
  if data.label_type = some "song" ∧ data.song.isSome then { L with song := data.song }
  else if data.label_type = some "ad" ∧ data.ad.isSome then { L with ad := data.ad }
  else if data.label_type = some "error" ∧ data.error.isSome then { L with error := data.error }
  else if data.label_type = some "program" ∧ data.program.isSome then { L with program := data.program }
  else if data.label_type = some "movie" ∧ data.movie.isSome then { L with movie := data.movie }
  else if data.label_type = some "promo" ∧ data.promo.isSome then { L with promo := data.promo }
  else if data.label_type = some "sports" ∧ data.sports.isSome then { L with sports := data.sports }
  else L

/-- The scalar part of `updateData`: `label_type` and `notes` only when
supplied; `start_time` and `end_time` are never part of `updateData`. -/
def updatedScalars (L : LabelRow) (data : UpdateLabel) : LabelRow :=
  { L with
    label_type :=
      match data.label_type with
      | some t => t
      | none => L.label_type
    notes :=
      match data.notes with
      | some n => n
      | none => L.notes }

/-- The label row after `prisma.label.update`: scalar updates then the
sub-record upsert chain. -/
def updatedRow (L : LabelRow) (data : UpdateLabel) : LabelRow :=
  applySubUpsert (updatedScalars L data) data

/-- The association rows after the update: fully replaced by the supplied
ids when `event_ids` was given (`deleteMany: {}` then nested creates),
untouched otherwise. -/
def updatedAssocs (db : DB) (labelId : Nat) (newEids : Option (List Nat)) :
    List LabelEvent :=
  match newEids with
  | some eids =>
      db.labelEvents.filter (fun le => le.label_id ≠ labelId) ++
        eids.map (fun eid => ⟨labelId, eid⟩)
  | none => db.labelEvents

/-- The store after a successful `updateLabel` of the row `L`. -/
def updatedDB (db : DB) (labelId : Nat) (L : LabelRow) (data : UpdateLabel)
    (newEids : Option (List Nat)) : DB :=
  { db with
    labels := db.labels.map (fun M => if M.id = labelId then updatedRow L data else M)
    labelEvents := updatedAssocs db labelId newEids }

/-- The DTO a successful `updateLabel` returns: the updated row's fields,
the post-update association ids, and either the precomputed image paths
(event set replaced) or the ones joined from the unchanged associations. -/
def updatedDTO (db : DB) (labelId : Nat) (L : LabelRow) (data : UpdateLabel)
    (newEids : Option (List Nat)) (preImages : List (Option String)) : Label :=
  let L2 := updatedRow L data
  { id := L2.id
    event_ids :=
      match newEids with
      | some eids => eids
      | none => (assocRowsOf db labelId).map (fun le => le.event_id)
    label_type := L2.label_type
    created_by := L2.created_by
    created_at := L2.created_at
    start_time := L2.start_time
    end_time := L2.end_time
    notes := L2.notes
    image_paths :=
      match newEids with
      | some _ => preImages
      | none =>
          (sortEventsByTimestamp (joinedEvents db (assocRowsOf db labelId))).map
            (fun e => e.image_path)
    song := L2.song
    ad := L2.ad
    error := L2.error
    program := L2.program
    movie := L2.movie
    promo := L2.promo
    sports := L2.sports }

/-- `prisma.label.update` with the assembled `updateData`: find the row
(P2025 when absent), check the association uniqueness constraint when the
event set is being replaced (P2002 on a conflict with the associations that
remain after this label's own are deleted), then write `updatedDB` and
return `updatedDTO`. -/
def updateLabelWrite (db : DB) (labelId : Nat) (data : UpdateLabel)
    (newEids : Option (List Nat)) (preImages : List (Option String)) :
    Except TryError (Label × DB) :=
  match db.labels.find? (fun L => L.id = labelId) with
  | none => Except.error (TryError.prismaKnown "P2025")
  | some L =>
    if (match newEids with
        | some eids =>
            assocConflict (db.labelEvents.filter (fun le => le.label_id ≠ labelId)) eids
        | none => false) then
      Except.error (TryError.prismaKnown "P2002")
    else
      Except.ok
        (updatedDTO db labelId L data newEids preImages,
         updatedDB db labelId L data newEids)

/-- The body of `LabelService.updateLabel`'s `try` block: when `event_ids`
is supplied, fetch and length-check the events (404 `AppError` on a
mismatch) and precompute the sorted image paths, then perform the store
update. -/
def updateLabelTry (db : DB) (labelId : Nat) (data : UpdateLabel) :
    Except TryError (Label × DB) :=
  match data.event_ids with
  | some eids =>
      let matched := findEvents db eids
      if matched.length ≠ eids.length then
        Except.error (TryError.app ⟨"One or more events not found", 404⟩)
      else
        updateLabelWrite db labelId data (some eids)
          ((sortEventsByTimestamp matched).map (fun e => e.image_path))
  | none => updateLabelWrite db labelId data none []

/-- `LabelService.updateLabel`: `try` body plus `catch`, which maps Prisma
P2025 to a 404 and every other failure (including the `AppError`s thrown
inside the `try`) to a generic 500. -/
def updateLabel (db : DB) (labelId : Nat) (data : UpdateLabel) :
    Except AppError (Label × DB) :=
  match updateLabelTry db labelId data with
  | Except.ok r => Except.ok r
  | Except.error (TryError.prismaKnown c) =>
      if c = "P2025" then Except.error ⟨"Label not found", 404⟩
      else Except.error ⟨"Failed to update label", 500⟩
  | Except.error _ => Except.error ⟨"Failed to update label", 500⟩

/-- `LabelService.deleteLabel`: `prisma.label.delete` raises P2025 when the
row is absent, which the `catch` turns into a 404; on success the row and
(by cascade) its association rows are removed. -/
def deleteLabel (db : DB) (labelId : Nat) : Except AppError DB :=
  if db.labels.any (fun L => L.id = labelId) then
    Except.ok
      { db with
        labels := db.labels.filter (fun L => L.id ≠ labelId)
        labelEvents := db.labelEvents.filter (fun le => le.label_id ≠ labelId) }
  else Except.error ⟨"Label not found", 404⟩

/-- `LabelService.deleteLabelsBulk`: `prisma.label.deleteMany` removes the
rows whose id is in the list (and, by cascade, their association rows) and
reports no error for ids that match nothing. -/
def deleteLabelsBulk (db : DB) (labelIds : List Nat) : Except AppError DB :=
  Except.ok
    { db with
      labels := db.labels.filter (fun L => ¬ labelIds.contains L.id)
      labelEvents := db.labelEvents.filter (fun le => ¬ labelIds.contains le.label_id) }

/-- The program-guide response DTO (`ProgramGuideLabel`). -/
structure ProgramGuideLabel where
  id : Nat
  label_type : String
  created_by : String
  created_at : Int
  start_time : Int
  end_time : Int
  notes : Option String
  device_id : Option String
  image_paths : List (Option String)
  song : Option String
  ad : Option String
  error : Option String
  program : Option String
  movie : Option String
  promo : Option String
  sports : Option String
deriving DecidableEq, Repr

/-- `startOfDay` in label-timestamp seconds: `setUTCHours(0, 0, 0, 0)` on the
request date (epoch ms) then `Math.floor(getTime() / 1000)`. -/
def guideWindowStart (dateMs : Int) : Int := Int.fdiv dateMs 86400000 * 86400

/-- `endOfDay` in seconds: `setUTCHours(23, 59, 59, 999)` then the same
floor division, which lands on the day's last whole second. -/
def guideWindowEnd (dateMs : Int) : Int := guideWindowStart dateMs + 86399

/-- The three-way `OR` of `getProgramGuideByDate`'s `whereClause`:
`start_time` inside the window, or `end_time` inside the window, or the
label spanning the whole window. -/
def labelInGuideWindow (s e : Int) (L : LabelRow) : Bool :=
  (decide (s ≤ L.start_time) && decide (L.start_time ≤ e)) ||
  (decide (s ≤ L.end_time) && decide (L.end_time ≤ e)) ||
  (decide (L.start_time ≤ s) && decide (e ≤ L.end_time))

/-- Comparator on label rows by ascending `start_time`. -/
def startLE (a b : LabelRow) : Prop := a.start_time ≤ b.start_time

instance : DecidableRel startLE := fun a b =>
  inferInstanceAs (Decidable (a.start_time ≤ b.start_time))

/-- Comparator on label rows by descending `start_time`. -/
def startGE (a b : LabelRow) : Prop := b.start_time ≤ a.start_time

instance : DecidableRel startGE := fun a b =>
  inferInstanceAs (Decidable (b.start_time ≤ a.start_time))

/-- Reshaping one label row into the program-guide DTO: `device_id` is the
first associated event's device (JavaScript `|| null` also nulls an empty
string), `image_paths` as in the other DTOs. -/
def labelToGuideDTO (db : DB) (L : LabelRow) : ProgramGuideLabel :=
  let assocs := assocRowsOf db L.id
  let firstDevice :=
    match (joinedEvents db assocs).head? with
    | some e => if e.device_id = "" then none else some e.device_id
    | none => none
  { id := L.id
    label_type := L.label_type
    created_by := L.created_by
    created_at := L.created_at
    start_time := L.start_time
    end_time := L.end_time
    notes := L.notes
    device_id := firstDevice
    image_paths := (sortEventsByTimestamp (joinedEvents db assocs)).map (fun e => e.image_path)
    song := L.song
    ad := L.ad
    error := L.error
    program := L.program
    movie := L.movie
    promo := L.promo
    sports := L.sports }

/-- `LabelService.getProgramGuideByDate`: validate the device id (404
`AppError`, which this method's `catch` re-raises unchanged), build the UTC
day window, and return the labels that match the window clause and have at
least one event on the device, ordered by `start_time`. -/
def getProgramGuideByDate (db : DB) (dateMs : Int) (deviceId : String)
    (sortAsc : Bool) : Except AppError (List ProgramGuideLabel) :=
  if deviceId ∈ db.devices then
    let s := guideWindowStart dateMs
    let e := guideWindowEnd dateMs
    let matching :=
      db.labels.filter (fun L => labelInGuideWindow s e L && labelHasDeviceEvent db deviceId L)
    let ordered :=
      if sortAsc then List.insertionSort startLE matching
      else List.insertionSort startGE matching
    Except.ok (ordered.map (labelToGuideDTO db))
  else Except.error ⟨"Invalid device ID", 404⟩

/-! ## Concrete stores and inputs used by counterexamples and witnesses -/

def evA : Event := ⟨1, "d1", 10, some "a.jpg", "frame"⟩

def evB : Event := ⟨2, "d1", 20, some "b.jpg", "frame"⟩

def evC : Event := ⟨3, "d1", 100, some "c.jpg", "frame"⟩

/-- A store with three unlabeled events on device `d1`. -/
def dbBase : DB := ⟨["d1"], [evA, evB, evC], [], [], 0⟩

/-- A `createLabel` payload for a song label over the given events. -/
def mkCreateSong (eids : List Nat) : CreateLabel :=
  ⟨eids, "song", "user1", none, some "tune", none, none, none, none, none, none⟩

/-- An `updateLabel` payload that only replaces the event set. -/
def updOnlyEvents (eids : List Nat) : UpdateLabel :=
  ⟨some eids, none, none, none, none, none, none, none, none, none⟩

/-- The store after creating a song label over events 1 and 2 on `dbBase`. -/
def dbAfterCreate : DB :=
  match createLabel dbBase (mkCreateSong [1, 2]) 0 with
  | Except.ok r => r.2
  | Except.error _ => dbBase

/-- The store after additionally replacing label 0's event set by event 3. -/
def dbAfterUpdate : DB :=
  match updateLabel dbAfterCreate 0 (updOnlyEvents [3]) with
  | Except.ok r => r.2
  | Except.error _ => dbAfterCreate

/-- The label row created by `createLabel dbBase (mkCreateSong [1, 2]) 0`. -/
def rowAfterCreate : LabelRow := createdRow dbBase (mkCreateSong [1, 2]) 0

def rowA : LabelRow :=
  ⟨0, "song", "user1", 0, 10, 10, none, some "tune", none, none, none, none, none, none⟩

def rowB : LabelRow :=
  ⟨1, "song", "user1", 0, 20, 20, none, some "tune", none, none, none, none, none, none⟩

/-- A store where label 0 owns event 1 and label 1 owns event 2. -/
def dbTwoLabels : DB := ⟨["d1"], [evA, evB], [rowA, rowB], [⟨0, 1⟩, ⟨1, 2⟩], 2⟩

/-- An `updateLabel` payload carrying new notes and a song payload but no
`label_type`. -/
def updNotesSong : UpdateLabel :=
  ⟨none, none, some (some "new note"), some "other tune", none, none, none, none, none, none⟩

/-- A label spanning seconds 50 to 120 of the epoch day 0. -/
def rowG : LabelRow :=
  ⟨0, "song", "user1", 0, 50, 120, none, some "tune", none, none, none, none, none, none⟩

/-- A store with one labeled event on device `d1`, for the program guide. -/
def dbG : DB := ⟨["d1"], [evA], [rowG], [⟨0, 1⟩], 1⟩

/-- The program guide of `dbG` for epoch day 0 on device `d1`. -/
def resG : List ProgramGuideLabel :=
  (List.insertionSort startLE
    (dbG.labels.filter (fun L =>
      labelInGuideWindow (guideWindowStart 0) (guideWindowEnd 0) L &&
        labelHasDeviceEvent dbG "d1" L))).map (labelToGuideDTO dbG)

/-! ## Helper lemmas -/

lemma foldl_min_mem (ts : List Int) :
    ∀ t : Int, ts.foldl min t = t ∨ ts.foldl min t ∈ ts := by
  induction ts with
  | nil => intro t; exact Or.inl rfl
  | cons a l ih =>
      intro t
      rw [List.foldl_cons]
      rcases ih (min t a) with h | h
      · rw [h]
        rcases min_choice t a with hc | hc
        · exact Or.inl hc
        · refine Or.inr ?_
          rw [hc]
          exact List.mem_cons_self a l
      · exact Or.inr (List.mem_cons_of_mem a h)

lemma foldl_min_le (ts : List Int) :
    ∀ t : Int, ts.foldl min t ≤ t ∧ ∀ x ∈ ts, ts.foldl min t ≤ x := by
  induction ts with
  | nil =>
      intro t
      refine ⟨le_refl t, ?_⟩
      intro x hx
      exact absurd hx (List.not_mem_nil x)
  | cons a l ih =>
      intro t
      rw [List.foldl_cons]
      have h := ih (min t a)
      refine ⟨le_trans h.1 (min_le_left t a), ?_⟩
      intro x hx
      rcases List.mem_cons.mp hx with rfl | hx
      · exact le_trans h.1 (min_le_right t x)
      · exact h.2 x hx

lemma foldl_max_mem (ts : List Int) :
    ∀ t : Int, ts.foldl max t = t ∨ ts.foldl max t ∈ ts := by
  induction ts with
  | nil => intro t; exact Or.inl rfl
  | cons a l ih =>
      intro t
      rw [List.foldl_cons]
      rcases ih (max t a) with h | h
      · rw [h]
        rcases max_choice t a with hc | hc
        · exact Or.inl hc
        · refine Or.inr ?_
          rw [hc]
          exact List.mem_cons_self a l
      · exact Or.inr (List.mem_cons_of_mem a h)

lemma foldl_max_le (ts : List Int) :
    ∀ t : Int, t ≤ ts.foldl max t ∧ ∀ x ∈ ts, x ≤ ts.foldl max t := by
  induction ts with
  | nil =>
      intro t
      refine ⟨le_refl t, ?_⟩
      intro x hx
      exact absurd hx (List.not_mem_nil x)
  | cons a l ih =>
      intro t
      rw [List.foldl_cons]
      have h := ih (max t a)
      refine ⟨le_trans (le_max_left t a) h.1, ?_⟩
      intro x hx
      rcases List.mem_cons.mp hx with rfl | hx
      · exact le_trans (le_max_right t x) h.1
      · exact h.2 x hx

/-- `Math.min(...l)` of a non-empty list is a member and a lower bound. -/
lemma jsMinList_spec : ∀ l : List Int, l ≠ [] →
    jsMinList l ∈ l ∧ ∀ x ∈ l, jsMinList l ≤ x
  | [], h => absurd rfl h
  | t :: ts, _ => by
      refine ⟨?_, ?_⟩
      · show ts.foldl min t ∈ t :: ts
        rcases foldl_min_mem ts t with h | h
        · rw [h]; exact List.mem_cons_self t ts
        · exact List.mem_cons_of_mem t h
      · intro x hx
        show ts.foldl min t ≤ x
        rcases List.mem_cons.mp hx with rfl | hx
        · exact (foldl_min_le ts x).1
        · exact (foldl_min_le ts t).2 x hx

/-- `Math.max(...l)` of a non-empty list is a member and an upper bound. -/
lemma jsMaxList_spec : ∀ l : List Int, l ≠ [] →
    jsMaxList l ∈ l ∧ ∀ x ∈ l, x ≤ jsMaxList l
  | [], h => absurd rfl h
  | t :: ts, _ => by
      refine ⟨?_, ?_⟩
      · show ts.foldl max t ∈ t :: ts
        rcases foldl_max_mem ts t with h | h
        · rw [h]; exact List.mem_cons_self t ts
        · exact List.mem_cons_of_mem t h
      · intro x hx
        show x ≤ ts.foldl max t
        rcases List.mem_cons.mp hx with rfl | hx
        · exact (foldl_max_le ts x).1
        · exact (foldl_max_le ts t).2 x hx

/-- `jsCeilDiv a b` is the ceiling of `a / b`: the unique `q` with
`a ≤ q * b < a + b` (for `b ≥ 1`). -/
lemma jsCeilDiv_spec (a b : Nat) (hb : 1 ≤ b) :
    a ≤ jsCeilDiv a b * b ∧ jsCeilDiv a b * b < a + b := by
  have key : ∀ t s : Nat, t + s = a + b - 1 → s < b → a ≤ t ∧ t < a + b := by
    intro t s h1 h2
    omega
  have h := key (b * ((a + b - 1) / b)) ((a + b - 1) % b)
    (Nat.div_add_mod (a + b - 1) b) (Nat.mod_lt (a + b - 1) hb)
  unfold jsCeilDiv
  rw [Nat.mul_comm]
  exact h

/-- Inversion of a successful `createLabelTry`: every guard passed and the
result is the canonical DTO/store pair. -/
lemma createLabelTry_ok_inv {db : DB} {data : CreateLabel} {now : Int}
    {r : Label × DB} (h : createLabelTry db data now = Except.ok r) :
    (findEvents db data.event_ids).length = data.event_ids.length ∧
    findEvents db data.event_ids ≠ [] ∧
    assocConflict db.labelEvents data.event_ids = false ∧
    r = (createdDTO db data now, createdDB db data now) := by
  unfold createLabelTry at h
  split_ifs at h with h1 h2 h3
  refine ⟨not_not.mp h1, ?_, Bool.eq_false_iff.mpr h3, (Except.ok.inj h).symm⟩
  intro hnil
  exact h2 (by simp [hnil])

/-- A successful `createLabel` comes from a successful `try` body. -/
lemma createLabel_ok_inv {db : DB} {data : CreateLabel} {now : Int}
    {r : Label × DB} (h : createLabel db data now = Except.ok r) :
    createLabelTry db data now = Except.ok r := by
  unfold createLabel at h
  cases htry : createLabelTry db data now with
  | ok r2 =>
      rw [htry] at h
      dsimp only at h
      rw [Except.ok.inj h]
  | error e =>
      rw [htry] at h
      cases e with
      | app a => simp at h
      | prismaKnown c =>
          dsimp only at h
          split_ifs at h
      | js s => simp at h

/-- Inversion of a successful `updateLabelWrite`: the row was found, no
uniqueness conflict arose, and the result is the canonical DTO/store pair. -/
lemma updateLabelWrite_ok_inv {db : DB} {labelId : Nat} {data : UpdateLabel}
    {newEids : Option (List Nat)} {preImages : List (Option String)}
    {r : Label × DB}
    (h : updateLabelWrite db labelId data newEids preImages = Except.ok r) :
    ∃ L, db.labels.find? (fun M => M.id = labelId) = some L ∧
      r = (updatedDTO db labelId L data newEids preImages,
           updatedDB db labelId L data newEids) := by
  unfold updateLabelWrite at h
  cases hf : db.labels.find? (fun M => M.id = labelId) with
  | none =>
      rw [hf] at h
      simp at h
  | some L =>
      rw [hf] at h
      dsimp only at h
      split_ifs at h
      exact ⟨L, rfl, (Except.ok.inj h).symm⟩

/-- Inversion of a successful `updateLabelTry`: when `event_ids` was
supplied, all referenced events were found, and in every case the result is
the canonical DTO/store pair for some found row `L`. -/
lemma updateLabelTry_ok_inv {db : DB} {labelId : Nat} {data : UpdateLabel}
    {r : Label × DB} (h : updateLabelTry db labelId data = Except.ok r) :
    ∃ L preImages, db.labels.find? (fun M => M.id = labelId) = some L ∧
      (∀ eids, data.event_ids = some eids →
        (findEvents db eids).length = eids.length) ∧
      r = (updatedDTO db labelId L data data.event_ids preImages,
           updatedDB db labelId L data data.event_ids) := by
  unfold updateLabelTry at h
  cases hE : data.event_ids with
  | none =>
      rw [hE] at h
      dsimp only at h
      obtain ⟨L, hf, hr⟩ := updateLabelWrite_ok_inv h
      refine ⟨L, [], hf, ?_, hr⟩
      intro eids heq
      cases heq
  | some eids =>
      rw [hE] at h
      dsimp only at h
      split_ifs at h with hlen
      obtain ⟨L, hf, hr⟩ := updateLabelWrite_ok_inv h
      refine ⟨L, _, hf, ?_, hr⟩
      intro eids2 heq
      rw [← Option.some.inj heq]
      exact not_not.mp hlen

/-- A successful `updateLabel` comes from a successful `try` body. -/
lemma updateLabel_ok_inv {db : DB} {labelId : Nat} {data : UpdateLabel}
    {r : Label × DB} (h : updateLabel db labelId data = Except.ok r) :
    updateLabelTry db labelId data = Except.ok r := by
  unfold updateLabel at h
  cases htry : updateLabelTry db labelId data with
  | ok r2 =>
      rw [htry] at h
      dsimp only at h
      rw [Except.ok.inj h]
  | error e =>
      rw [htry] at h
      cases e with
      | app a => simp at h
      | prismaKnown c =>
          dsimp only at h
          split_ifs at h
      | js s => simp at h

/-- The sub-record upsert chain never touches `id`, `start_time` or
`end_time`, and `updatedScalars` does not either. -/
lemma updatedRow_id_bounds (L : LabelRow) (data : UpdateLabel) :
    (updatedRow L data).id = L.id ∧
    (updatedRow L data).start_time = L.start_time ∧
    (updatedRow L data).end_time = L.end_time := by
  unfold updatedRow applySubUpsert updatedScalars
  split_ifs <;> exact ⟨rfl, rfl, rfl⟩

/-- When the update payload carries no `label_type`, no upsert branch
fires. -/
lemma applySubUpsert_no_type {L : LabelRow} {data : UpdateLabel}
    (h : data.label_type = none) : applySubUpsert L data = L := by
  unfold applySubUpsert
  rw [h]
  simp

/-- A successful `updateLabel` found the row and produced the canonical
store, with the found row in the old store. -/
lemma updateLabel_ok_found {db : DB} {labelId : Nat} {data : UpdateLabel}
    {dto : Label} {db' : DB}
    (h : updateLabel db labelId data = Except.ok (dto, db')) :
    ∃ L preImages, L ∈ db.labels ∧ L.id = labelId ∧
      dto = updatedDTO db labelId L data data.event_ids preImages ∧
      db' = updatedDB db labelId L data data.event_ids := by
  obtain ⟨L, preImages, hf, hlen, hr⟩ := updateLabelTry_ok_inv (updateLabel_ok_inv h)
  have hL : L ∈ db.labels := List.mem_of_find?_eq_some hf
  have hLid : L.id = labelId := by
    have := List.find?_some hf
    simpa using this
  refine ⟨L, preImages, hL, hLid, ?_, ?_⟩
  · simpa using congrArg Prod.fst hr
  · simpa using congrArg Prod.snd hr

/-- The device-association clause, as a proposition. -/
lemma labelHasDeviceEvent_iff {db : DB} {d : String} {L : LabelRow} :
    labelHasDeviceEvent db d L = true ↔
      ∃ le ∈ db.labelEvents, le.label_id = L.id ∧
        ∃ ev ∈ db.events, ev.id = le.event_id ∧ ev.device_id = d := by
  unfold labelHasDeviceEvent
  simp [List.any_eq_true, Bool.and_eq_true, decide_eq_true_eq]

/-- For a label with ordered bounds and a day window, the code's three-way
disjunction is exactly interval overlap. -/
lemma labelInGuideWindow_iff {s e : Int} {L : LabelRow} (hse : s ≤ e)
    (hst : L.start_time ≤ L.end_time) :
    labelInGuideWindow s e L = true ↔
      (L.start_time ≤ e ∧ s ≤ L.end_time) := by
  unfold labelInGuideWindow
  simp only [Bool.or_eq_true, Bool.and_eq_true, decide_eq_true_eq]
  constructor
  · rintro ((⟨h1, h2⟩ | ⟨h1, h2⟩) | ⟨h1, h2⟩) <;> constructor <;> omega
  · rintro ⟨h1, h2⟩
    by_cases hc1 : s ≤ L.start_time
    · exact Or.inl (Or.inl ⟨hc1, h1⟩)
    · by_cases hc2 : L.end_time ≤ e
      · exact Or.inl (Or.inr ⟨h2, hc2⟩)
      · exact Or.inr ⟨by omega, by omega⟩

/-- Membership is invariant under the guide's ordering step. -/
lemma mem_guide_ordered {l : List LabelRow} {sortAsc : Bool} {M : LabelRow} :
    M ∈ (if sortAsc then List.insertionSort startLE l
         else List.insertionSort startGE l) ↔ M ∈ l := by
  split_ifs <;> exact (List.perm_insertionSort _ _).mem_iff

/-! ## Claim theorems -/

/-- C10: every `createLabel` call with an empty `event_ids` list fails with
the generic 500 error — the empty list passes the existence check, then
`BigInt(Math.min())` throws and the catch-all reports 500 — and no
successful `createLabel` call ever has an empty event set (neither in its
input nor in the returned DTO). -/
theorem createLabel_empty_event_ids_fails :
    (∀ (db : DB) (data : CreateLabel) (now : Int), data.event_ids = [] →
      createLabel db data now = Except.error ⟨"Failed to create label", 500⟩) ∧
    (∀ (db : DB) (data : CreateLabel) (now : Int) (dto : Label) (db' : DB),
      createLabel db data now = Except.ok (dto, db') →
      data.event_ids ≠ [] ∧ dto.event_ids ≠ []) := by
  constructor
  · intro db data now hE
    have hfe : findEvents db data.event_ids = [] := by
      unfold findEvents
      rw [hE]
      simp
    unfold createLabel createLabelTry
    rw [hfe, hE]
    rfl
  · intro db data now dto db' h
    obtain ⟨hlen, hne, hconf, hr⟩ := createLabelTry_ok_inv (createLabel_ok_inv h)
    have hEne : data.event_ids ≠ [] := by
      intro hE
      apply hne
      unfold findEvents
      rw [hE]
      simp
    refine ⟨hEne, ?_⟩
    have hdto : dto = createdDTO db data now := by
      simpa using congrArg Prod.fst hr
    rw [hdto]
    exact hEne

/-- C10 witness: the empty-list failure and a successful call, at concrete
inputs. -/
theorem createLabel_empty_event_ids_fails_witness :
    createLabel dbBase (mkCreateSong []) 0 =
        Except.error ⟨"Failed to create label", 500⟩ ∧
      (mkCreateSong [1, 2]).event_ids ≠ [] := by
  constructor
  · exact createLabel_empty_event_ids_fails.1 dbBase (mkCreateSong []) 0 rfl
  · exact (createLabel_empty_event_ids_fails.2 dbBase (mkCreateSong [1, 2]) 0
      (createdDTO dbBase (mkCreateSong [1, 2]) 0)
      (createdDB dbBase (mkCreateSong [1, 2]) 0) rfl).1

/-- C1: at a concrete store holding only event 1, creating a label over the
nonexistent event 2 does throw the 404 `AppError` inside the `try` block,
but the surrounding catch-all converts it to the generic
500 "Failed to create label", so the caller never sees the 404. -/
theorem createLabel_missing_event_gives_500 :
    createLabelTry dbBase (mkCreateSong [7]) 0 =
        Except.error (TryError.app ⟨"One or more events not found", 404⟩) ∧
      createLabel dbBase (mkCreateSong [7]) 0 =
        Except.error ⟨"Failed to create label", 500⟩ :=
  ⟨rfl, rfl⟩

/-- C7: deleting a nonexistent label id fails with the 404 "Label not
found" error, and bulk deletion never errors and removes exactly the labels
whose id is in the list. -/
theorem delete_label_and_bulk_delete :
    (∀ (db : DB) (labelId : Nat), (∀ L ∈ db.labels, L.id ≠ labelId) →
      deleteLabel db labelId = Except.error ⟨"Label not found", 404⟩) ∧
    (∀ (db : DB) (labelIds : List Nat), ∃ db',
      deleteLabelsBulk db labelIds = Except.ok db' ∧
      ∀ L, L ∈ db'.labels ↔ L ∈ db.labels ∧ L.id ∉ labelIds) := by
  constructor
  · intro db labelId hnone
    unfold deleteLabel
    split_ifs with hany
    · exfalso
      simp only [List.any_eq_true, decide_eq_true_eq] at hany
      obtain ⟨L, hL, hid⟩ := hany
      exact hnone L hL hid
    · rfl
  · intro db labelIds
    refine ⟨_, rfl, ?_⟩
    intro L
    simp [List.mem_filter]

/-- C7 witness: both parts at concrete inputs — id 9 is absent from
`dbTwoLabels`, and bulk-deleting ids 1 and 9 removes exactly label 1. -/
theorem delete_label_and_bulk_delete_witness :
    deleteLabel dbTwoLabels 9 = Except.error ⟨"Label not found", 404⟩ ∧
      ∃ db', deleteLabelsBulk dbTwoLabels [1, 9] = Except.ok db' ∧
        ∀ L, L ∈ db'.labels ↔ L ∈ dbTwoLabels.labels ∧ L.id ∉ [1, 9] :=
  ⟨delete_label_and_bulk_delete.1 dbTwoLabels 9 (by decide),
   delete_label_and_bulk_delete.2 dbTwoLabels [1, 9]⟩

/-- C8: whenever the store reports a uniqueness-constraint violation
(Prisma P2002) during `createLabel`'s write, the `catch` clause translates
it to the 400 conflict "Label already exists for one or more events" rather
than the generic 500. -/
theorem createLabel_p2002_maps_to_conflict :
    ∀ (db : DB) (data : CreateLabel) (now : Int),
      createLabelTry db data now = Except.error (TryError.prismaKnown "P2002") →
      createLabel db data now =
        Except.error ⟨"Label already exists for one or more events", 400⟩ := by
  intro db data now h
  unfold createLabel
  rw [h]
  rfl

/-- C8 witness: in `dbTwoLabels` event 1 already belongs to label 0, so
creating another label over it hits the uniqueness constraint and the call
returns the 400 conflict. -/
theorem createLabel_p2002_maps_to_conflict_witness :
    createLabel dbTwoLabels (mkCreateSong [1]) 0 =
      Except.error ⟨"Label already exists for one or more events", 400⟩ :=
  createLabel_p2002_maps_to_conflict dbTwoLabels (mkCreateSong [1]) 0 rfl

/-- C5: for both paginated listings, with `page ≥ 1` and `limit ≥ 1`, the
returned metadata is consistent: `currentPage` is the requested page,
`total` counts exactly the records matching the active filters, and
`totalPages` is the ceiling of `total / limit` (characterized as the unique
value with `total ≤ totalPages * limit < total + limit`). -/
theorem pagination_metadata_consistent :
    (∀ (db : DB) (o : GetUnlabeledEventsOptions), 1 ≤ o.page → 1 ≤ o.limit →
      (getUnlabeledEvents db o).currentPage = o.page ∧
      (getUnlabeledEvents db o).total =
        (db.events.filter (eventMatchesUnlabeled db o)).length ∧
      (getUnlabeledEvents db o).total ≤
        (getUnlabeledEvents db o).totalPages * o.limit ∧
      (getUnlabeledEvents db o).totalPages * o.limit <
        (getUnlabeledEvents db o).total + o.limit) ∧
    (∀ (db : DB) (o : GetLabelsOptions), 1 ≤ o.page → 1 ≤ o.limit →
      (getLabels db o).currentPage = o.page ∧
      (getLabels db o).total = (db.labels.filter (labelMatches db o)).length ∧
      (getLabels db o).total ≤ (getLabels db o).totalPages * o.limit ∧
      (getLabels db o).totalPages * o.limit <
        (getLabels db o).total + o.limit) := by
  constructor
  · intro db o hp hl
    have hspec :=
      jsCeilDiv_spec (db.events.filter (eventMatchesUnlabeled db o)).length o.limit hl
    exact ⟨rfl, rfl, hspec.1, hspec.2⟩
  · intro db o hp hl
    have hspec :=
      jsCeilDiv_spec (db.labels.filter (labelMatches db o)).length o.limit hl
    exact ⟨rfl, rfl, hspec.1, hspec.2⟩

/-- C5 witness: the metadata consistency at a concrete store and concrete
options for both listings. -/
theorem pagination_metadata_consistent_witness :
    ((getUnlabeledEvents dbTwoLabels ⟨1, 2, none, none, none, none, none⟩).currentPage = 1 ∧
      (getUnlabeledEvents dbTwoLabels ⟨1, 2, none, none, none, none, none⟩).total ≤
        (getUnlabeledEvents dbTwoLabels ⟨1, 2, none, none, none, none, none⟩).totalPages * 2) ∧
    ((getLabels dbTwoLabels ⟨1, 1, none, none, none, none, none, none⟩).currentPage = 1 ∧
      (getLabels dbTwoLabels ⟨1, 1, none, none, none, none, none, none⟩).totalPages * 1 <
        (getLabels dbTwoLabels ⟨1, 1, none, none, none, none, none, none⟩).total + 1) := by
  have h1 := pagination_metadata_consistent.1 dbTwoLabels
    ⟨1, 2, none, none, none, none, none⟩ (by decide) (by decide)
  have h2 := pagination_metadata_consistent.2 dbTwoLabels
    ⟨1, 1, none, none, none, none, none, none⟩ (by decide) (by decide)
  exact ⟨⟨h1.1, h1.2.2.1⟩, ⟨h2.1, h2.2.2.2⟩⟩

/-- C3: a successful `createLabel` returns a DTO whose `start_time` is the
minimum and `end_time` the maximum of the referenced events' timestamps,
and whose `image_paths` list the referenced events' image paths in
ascending order of their timestamps (an according sorted permutation of the
fetched events). -/
theorem createLabel_success_bounds_and_image_order
    (db : DB) (data : CreateLabel) (now : Int) (dto : Label) (db' : DB)
    (h : createLabel db data now = Except.ok (dto, db')) :
    (dto.start_time ∈ (findEvents db data.event_ids).map (fun e => e.timestamp) ∧
      ∀ t ∈ (findEvents db data.event_ids).map (fun e => e.timestamp),
        dto.start_time ≤ t) ∧
    (dto.end_time ∈ (findEvents db data.event_ids).map (fun e => e.timestamp) ∧
      ∀ t ∈ (findEvents db data.event_ids).map (fun e => e.timestamp),
        t ≤ dto.end_time) ∧
    (∃ es : List Event, es.Perm (findEvents db data.event_ids) ∧
      (es.map (fun e => e.timestamp)).Sorted (fun a b => a ≤ b) ∧
      dto.image_paths = es.map (fun e => e.image_path)) := by
  obtain ⟨hlen, hne, hconf, hr⟩ := createLabelTry_ok_inv (createLabel_ok_inv h)
  have hdto : dto = createdDTO db data now := by
    simpa using congrArg Prod.fst hr
  subst hdto
  have hlne : ((findEvents db data.event_ids).map (fun e => e.timestamp)) ≠ [] := by
    intro h0
    exact hne (List.map_eq_nil_iff.mp h0)
  have hmin := jsMinList_spec _ hlne
  have hmax := jsMaxList_spec _ hlne
  refine ⟨⟨hmin.1, hmin.2⟩, ⟨hmax.1, hmax.2⟩, ?_⟩
  refine ⟨sortEventsByTimestamp (findEvents db data.event_ids),
    List.perm_insertionSort tsLE _, ?_, rfl⟩
  have hs : List.Sorted tsLE (sortEventsByTimestamp (findEvents db data.event_ids)) :=
    List.sorted_insertionSort tsLE _
  exact List.pairwise_map.mpr hs

/-- C3 witness: the bounds at the concrete call creating a label over
events 2 and 1 of `dbBase`. -/
theorem createLabel_success_bounds_witness :
    ((createdDTO dbBase (mkCreateSong [2, 1]) 0).start_time ∈
        (findEvents dbBase [2, 1]).map (fun e => e.timestamp) ∧
      ∀ t ∈ (findEvents dbBase [2, 1]).map (fun e => e.timestamp),
        (createdDTO dbBase (mkCreateSong [2, 1]) 0).start_time ≤ t) :=
  (createLabel_success_bounds_and_image_order dbBase (mkCreateSong [2, 1]) 0
    (createdDTO dbBase (mkCreateSong [2, 1]) 0)
    (createdDB dbBase (mkCreateSong [2, 1]) 0) rfl).1

/-- C2 counterexample: create a label over events 1 (timestamp 10) and 2
(timestamp 20), then replace its event set by event 3 (timestamp 100).
Afterwards the label's only constituent event has timestamp 100, but its
`start_time` is still 10 and its `end_time` still 20 — `updateLabel` never
recomputes the bounds, so they are not the min/max of the current event
set. -/
theorem updateLabel_stale_bounds_cex :
    dbAfterUpdate.labels.map (fun L => (L.id, L.start_time, L.end_time)) =
        [(0, 10, 20)] ∧
      (dbAfterUpdate.labelEvents.filter (fun le => le.label_id = 0)).map
          (fun le => le.event_id) = [3] ∧
      (findEvents dbAfterUpdate [3]).map (fun e => e.timestamp) = [100] ∧
      ((10 : Int) ≠ 100 ∧ (20 : Int) ≠ 100) :=
  ⟨rfl, rfl, rfl, by decide⟩

/-- C2 amended: after a successful `createLabel` the created label's
`start_time`/`end_time` are the min/max of its constituent events'
timestamps (its associations being exactly the supplied event ids, in a
store whose association rows all point below `nextLabelId`), and
`start_time ≤ end_time`; a successful `updateLabel`, by contrast, leaves
every label's `start_time`/`end_time` unchanged, even when it replaces the
event set. -/
theorem label_bounds_create_update
    : (∀ (db : DB) (data : CreateLabel) (now : Int) (dto : Label) (db' : DB),
        (∀ le ∈ db.labelEvents, le.label_id < db.nextLabelId) →
        createLabel db data now = Except.ok (dto, db') →
        ∃ L ∈ db'.labels, L.id = db.nextLabelId ∧
          (db'.labelEvents.filter (fun le => le.label_id = L.id)).map
              (fun le => le.event_id) = data.event_ids ∧
          (L.start_time ∈ (findEvents db' data.event_ids).map (fun e => e.timestamp) ∧
            ∀ t ∈ (findEvents db' data.event_ids).map (fun e => e.timestamp),
              L.start_time ≤ t) ∧
          (L.end_time ∈ (findEvents db' data.event_ids).map (fun e => e.timestamp) ∧
            ∀ t ∈ (findEvents db' data.event_ids).map (fun e => e.timestamp),
              t ≤ L.end_time) ∧
          L.start_time ≤ L.end_time) ∧
      (∀ (db : DB) (labelId : Nat) (data : UpdateLabel) (dto : Label) (db' : DB),
        updateLabel db labelId data = Except.ok (dto, db') →
        ∀ L2 ∈ db'.labels, ∃ L1 ∈ db.labels, L2.id = L1.id ∧
          L2.start_time = L1.start_time ∧ L2.end_time = L1.end_time) := by
  constructor
  · intro db data now dto db' hwf h
    obtain ⟨hlen, hne, hconf, hr⟩ := createLabelTry_ok_inv (createLabel_ok_inv h)
    have hdb : db' = createdDB db data now := by
      simpa using congrArg Prod.snd hr
    subst hdb
    refine ⟨createdRow db data now,
      List.mem_append.mpr (Or.inr (List.mem_singleton.mpr rfl)), rfl, ?_, ?_⟩
    · show ((db.labelEvents ++
          data.event_ids.map (fun eid => (⟨db.nextLabelId, eid⟩ : LabelEvent))).filter
            (fun le : LabelEvent => le.label_id = db.nextLabelId)).map
          (fun le : LabelEvent => le.event_id) = data.event_ids
      rw [List.filter_append]
      have h1 : db.labelEvents.filter (fun le => le.label_id = db.nextLabelId) = [] := by
        rw [List.filter_eq_nil_iff]
        intro le hle
        simp only [decide_eq_true_eq]
        exact Nat.ne_of_lt (hwf le hle)
      have h2 : (data.event_ids.map
            (fun eid => (⟨db.nextLabelId, eid⟩ : LabelEvent))).filter
              (fun le => le.label_id = db.nextLabelId) =
          data.event_ids.map (fun eid => ⟨db.nextLabelId, eid⟩) := by
        rw [List.filter_eq_self]
        intro le hle
        obtain ⟨eid, _, rfl⟩ := List.mem_map.mp hle
        simp
      rw [h1, h2, List.nil_append, List.map_map]
      exact List.map_id _
    · have hlne :
          ((findEvents db data.event_ids).map (fun e => e.timestamp)) ≠ [] := by
        intro h0
        exact hne (List.map_eq_nil_iff.mp h0)
      have hmin := jsMinList_spec _ hlne
      have hmax := jsMaxList_spec _ hlne
      exact ⟨⟨hmin.1, hmin.2⟩, ⟨hmax.1, hmax.2⟩, hmax.2 _ hmin.1⟩
  · intro db labelId data dto db' h L2 hL2
    obtain ⟨L, preImages, hL, hLid, hdto, hdb⟩ := updateLabel_ok_found h
    rw [hdb] at hL2
    obtain ⟨M, hM, hEq⟩ := List.mem_map.mp hL2
    by_cases hMid : M.id = labelId
    · rw [if_pos hMid] at hEq
      obtain ⟨hid, hst, het⟩ := updatedRow_id_bounds L data
      exact ⟨L, hL, by rw [← hEq, hid], by rw [← hEq, hst], by rw [← hEq, het]⟩
    · rw [if_neg hMid] at hEq
      exact ⟨M, hM, by rw [hEq], by rw [hEq], by rw [hEq]⟩

/-- C2 amended witness: both parts at concrete inputs — the create over
events 1 and 2 of `dbBase`, and the event-set replacement performed in
`dbAfterUpdate`. -/
theorem label_bounds_create_update_witness :
    (∃ L ∈ (createdDB dbBase (mkCreateSong [1, 2]) 0).labels,
      L.id = dbBase.nextLabelId ∧
      ((createdDB dbBase (mkCreateSong [1, 2]) 0).labelEvents.filter
          (fun le => le.label_id = L.id)).map (fun le => le.event_id) = [1, 2] ∧
      (L.start_time ∈
          (findEvents (createdDB dbBase (mkCreateSong [1, 2]) 0) [1, 2]).map
            (fun e => e.timestamp) ∧
        ∀ t ∈ (findEvents (createdDB dbBase (mkCreateSong [1, 2]) 0) [1, 2]).map
            (fun e => e.timestamp), L.start_time ≤ t) ∧
      (L.end_time ∈
          (findEvents (createdDB dbBase (mkCreateSong [1, 2]) 0) [1, 2]).map
            (fun e => e.timestamp) ∧
        ∀ t ∈ (findEvents (createdDB dbBase (mkCreateSong [1, 2]) 0) [1, 2]).map
            (fun e => e.timestamp), t ≤ L.end_time) ∧
      L.start_time ≤ L.end_time) ∧
    (∀ L2 ∈ dbAfterUpdate.labels, ∃ L1 ∈ dbAfterCreate.labels,
      L2.id = L1.id ∧ L2.start_time = L1.start_time ∧ L2.end_time = L1.end_time) := by
  constructor
  · exact label_bounds_create_update.1 dbBase (mkCreateSong [1, 2]) 0
      (createdDTO dbBase (mkCreateSong [1, 2]) 0)
      (createdDB dbBase (mkCreateSong [1, 2]) 0) (by decide) rfl
  · exact label_bounds_create_update.2 dbAfterCreate 0 (updOnlyEvents [3])
      (updatedDTO dbAfterCreate 0 rowAfterCreate (updOnlyEvents [3]) (some [3])
        ((sortEventsByTimestamp (findEvents dbAfterCreate [3])).map
          (fun e => e.image_path)))
      dbAfterUpdate (by rfl)

/-- C9: when an `updateLabel` payload omits `label_type`, no upsert branch
of the sub-record chain fires, so every label's seven type-specific
sub-records are unchanged in the resulting store (whatever sub-record
payloads the update carried). -/
theorem update_without_label_type_preserves_subrecords
    (db : DB) (labelId : Nat) (data : UpdateLabel) (dto : Label) (db' : DB)
    (hlt : data.label_type = none)
    (h : updateLabel db labelId data = Except.ok (dto, db')) :
    ∀ L2 ∈ db'.labels, ∃ L1 ∈ db.labels, L2.id = L1.id ∧
      L2.song = L1.song ∧ L2.ad = L1.ad ∧ L2.error = L1.error ∧
      L2.program = L1.program ∧ L2.movie = L1.movie ∧
      L2.promo = L1.promo ∧ L2.sports = L1.sports := by
  intro L2 hL2
  obtain ⟨L, preImages, hL, hLid, hdto, hdb⟩ := updateLabel_ok_found h
  rw [hdb] at hL2
  obtain ⟨M, hM, hEq⟩ := List.mem_map.mp hL2
  by_cases hMid : M.id = labelId
  · rw [if_pos hMid] at hEq
    have hrow : updatedRow L data = updatedScalars L data := by
      unfold updatedRow
      exact applySubUpsert_no_type hlt
    rw [hrow] at hEq
    rw [← hEq]
    exact ⟨L, hL, rfl, rfl, rfl, rfl, rfl, rfl, rfl, rfl⟩
  · rw [if_neg hMid] at hEq
    rw [← hEq]
    exact ⟨M, hM, rfl, rfl, rfl, rfl, rfl, rfl, rfl, rfl⟩

/-- C9 witness: updating label 0 of `dbTwoLabels` with new notes and a song
payload but no `label_type` leaves the updated row's sub-records equal to
those of a stored row. -/
theorem update_without_label_type_witness :
    ∃ L1 ∈ dbTwoLabels.labels, (updatedRow rowA updNotesSong).id = L1.id ∧
      (updatedRow rowA updNotesSong).song = L1.song ∧
      (updatedRow rowA updNotesSong).ad = L1.ad ∧
      (updatedRow rowA updNotesSong).error = L1.error ∧
      (updatedRow rowA updNotesSong).program = L1.program ∧
      (updatedRow rowA updNotesSong).movie = L1.movie ∧
      (updatedRow rowA updNotesSong).promo = L1.promo ∧
      (updatedRow rowA updNotesSong).sports = L1.sports :=
  update_without_label_type_preserves_subrecords dbTwoLabels 0 updNotesSong
    (updatedDTO dbTwoLabels 0 rowA updNotesSong none [])
    (updatedDB dbTwoLabels 0 rowA updNotesSong none) rfl (by rfl)
    (updatedRow rowA updNotesSong) (by decide)

/-- C4 counterexample: in `dbTwoLabels` both events exist and label 1
exists, yet replacing label 1's event set by [1] fails — event 1 already
belongs to label 0, so the store raises P2002, which `updateLabel`'s catch
reports as a generic 500 — and label 1's associations stay [2], not [1]. -/
theorem updateLabel_replacement_conflict_cex :
    dbTwoLabels.events.map (fun e => e.id) = [1, 2] ∧
      dbTwoLabels.labels.map (fun L => L.id) = [0, 1] ∧
      updateLabel dbTwoLabels 1 (updOnlyEvents [1]) =
        Except.error ⟨"Failed to update label", 500⟩ ∧
      (dbTwoLabels.labelEvents.filter (fun le => le.label_id = 1)).map
        (fun le => le.event_id) = [2] :=
  ⟨rfl, rfl, rfl, rfl⟩

/-- C4 amended: a *successful* `updateLabel` that supplied `event_ids`
(which requires, besides the label and events existing, that no supplied
event belong to a different label) leaves the label's associations exactly
the supplied ids — every association of this label maps into the supplied
list, every supplied id is associated — and the returned DTO's `event_ids`
are the supplied list; on a uniqueness conflict the call errors and the
store is unchanged. -/
theorem updateLabel_replaces_event_set
    (db : DB) (labelId : Nat) (data : UpdateLabel) (eids : List Nat)
    (dto : Label) (db' : DB)
    (hE : data.event_ids = some eids)
    (h : updateLabel db labelId data = Except.ok (dto, db')) :
    (∀ le ∈ db'.labelEvents, le.label_id = labelId → le.event_id ∈ eids) ∧
    (∀ eid ∈ eids, (⟨labelId, eid⟩ : LabelEvent) ∈ db'.labelEvents) ∧
    dto.event_ids = eids := by
  obtain ⟨L, preImages, hL, hLid, hdto, hdb⟩ := updateLabel_ok_found h
  rw [hE] at hdto hdb
  refine ⟨?_, ?_, ?_⟩
  · intro le hle hlid
    rw [hdb] at hle
    have hle2 : le ∈ db.labelEvents.filter (fun x => x.label_id ≠ labelId) ++
        eids.map (fun eid => (⟨labelId, eid⟩ : LabelEvent)) := hle
    rcases List.mem_append.mp hle2 with hx | hx
    · exfalso
      have hne := (List.mem_filter.mp hx).2
      simp only [decide_eq_true_eq] at hne
      exact hne hlid
    · obtain ⟨eid, heid, hmk⟩ := List.mem_map.mp hx
      rw [← hmk]
      exact heid
  · intro eid heid
    rw [hdb]
    show (⟨labelId, eid⟩ : LabelEvent) ∈
      db.labelEvents.filter (fun x => x.label_id ≠ labelId) ++
        eids.map (fun eid => (⟨labelId, eid⟩ : LabelEvent))
    exact List.mem_append.mpr (Or.inr (List.mem_map_of_mem _ heid))
  · rw [hdto]
    rfl

/-- C4 amended witness: the successful replacement of label 0's event set
by event 3, performed on `dbAfterCreate`. -/
theorem updateLabel_replaces_event_set_witness :
    (∀ le ∈ dbAfterUpdate.labelEvents, le.label_id = 0 → le.event_id ∈ [3]) ∧
      (∀ eid ∈ [3], (⟨0, eid⟩ : LabelEvent) ∈ dbAfterUpdate.labelEvents) ∧
      (updatedDTO dbAfterCreate 0 rowAfterCreate (updOnlyEvents [3]) (some [3])
        ((sortEventsByTimestamp (findEvents dbAfterCreate [3])).map
          (fun e => e.image_path))).event_ids = [3] :=
  updateLabel_replaces_event_set dbAfterCreate 0 (updOnlyEvents [3]) [3]
    (updatedDTO dbAfterCreate 0 rowAfterCreate (updOnlyEvents [3]) (some [3])
      ((sortEventsByTimestamp (findEvents dbAfterCreate [3])).map
        (fun e => e.image_path)))
    dbAfterUpdate rfl (by rfl)

/-- C6: `getProgramGuideByDate` fails with the 404 "Invalid device ID"
whenever the device does not exist (regardless of the stored labels), and
otherwise returns exactly those labels which have at least one event on the
device and whose `[start_time, end_time]` interval overlaps the UTC day
window of the given date (stated for stores whose labels have ordered
bounds and distinct ids). -/
theorem program_guide_device_check_and_day_overlap :
    (∀ (db : DB) (dateMs : Int) (deviceId : String) (sortAsc : Bool),
      deviceId ∉ db.devices →
      getProgramGuideByDate db dateMs deviceId sortAsc =
        Except.error ⟨"Invalid device ID", 404⟩) ∧
    (∀ (db : DB) (dateMs : Int) (deviceId : String) (sortAsc : Bool)
        (res : List ProgramGuideLabel),
      (∀ L ∈ db.labels, L.start_time ≤ L.end_time) →
      (db.labels.map (fun L => L.id)).Nodup →
      getProgramGuideByDate db dateMs deviceId sortAsc = Except.ok res →
      ∀ L ∈ db.labels,
        ((∃ pg ∈ res, pg.id = L.id) ↔
          ((∃ le ∈ db.labelEvents, le.label_id = L.id ∧
             ∃ ev ∈ db.events, ev.id = le.event_id ∧ ev.device_id = deviceId) ∧
           L.start_time ≤ guideWindowEnd dateMs ∧
           guideWindowStart dateMs ≤ L.end_time))) := by
  constructor
  · intro db dateMs deviceId sortAsc hdev
    unfold getProgramGuideByDate
    rw [if_neg hdev]
  · intro db dateMs deviceId sortAsc res hbounds hnodup hok L hL
    unfold getProgramGuideByDate at hok
    by_cases hdev : deviceId ∈ db.devices
    swap
    · rw [if_neg hdev] at hok
      exact absurd hok (by simp)
    rw [if_pos hdev] at hok
    dsimp only at hok
    have hres := Except.ok.inj hok
    have hse : guideWindowStart dateMs ≤ guideWindowEnd dateMs := by
      unfold guideWindowEnd
      omega
    constructor
    · rintro ⟨pg, hpg, hid⟩
      rw [← hres] at hpg
      obtain ⟨M, hM, hMpg⟩ := List.mem_map.mp hpg
      have hMmem := mem_guide_ordered.mp hM
      have hMf := List.mem_filter.mp hMmem
      have hMid : M.id = L.id := by
        rw [← hMpg] at hid
        exact hid
      have hML : M = L :=
        List.inj_on_of_nodup_map hnodup hMf.1 hL hMid
      rw [hML] at hMf
      have hpred := hMf.2
      rw [Bool.and_eq_true] at hpred
      refine ⟨labelHasDeviceEvent_iff.mp hpred.2, ?_⟩
      exact (labelInGuideWindow_iff hse (hbounds L hL)).mp hpred.1
    · rintro ⟨hdevL, hov⟩
      have hpred : (labelInGuideWindow (guideWindowStart dateMs)
          (guideWindowEnd dateMs) L && labelHasDeviceEvent db deviceId L) = true := by
        rw [Bool.and_eq_true]
        exact ⟨(labelInGuideWindow_iff hse (hbounds L hL)).mpr hov,
          labelHasDeviceEvent_iff.mpr hdevL⟩
      have hfil : L ∈ db.labels.filter (fun M =>
          labelInGuideWindow (guideWindowStart dateMs) (guideWindowEnd dateMs) M &&
            labelHasDeviceEvent db deviceId M) :=
        List.mem_filter.mpr ⟨hL, hpred⟩
      refine ⟨labelToGuideDTO db L, ?_, rfl⟩
      rw [← hres]
      exact List.mem_map_of_mem _ (mem_guide_ordered.mpr hfil)

/-- C6 witness: both parts at concrete inputs — an unknown device on
`dbBase`, and the guide of `dbG` for epoch day 0 on device `d1`, where
label 0 overlaps the window through its device event. -/
theorem program_guide_witness :
    getProgramGuideByDate dbBase 0 "nodev" true =
        Except.error ⟨"Invalid device ID", 404⟩ ∧
      ((∃ pg ∈ resG, pg.id = rowG.id) ↔
        ((∃ le ∈ dbG.labelEvents, le.label_id = rowG.id ∧
           ∃ ev ∈ dbG.events, ev.id = le.event_id ∧ ev.device_id = "d1") ∧
         rowG.start_time ≤ guideWindowEnd 0 ∧
         guideWindowStart 0 ≤ rowG.end_time)) :=
  ⟨program_guide_device_check_and_day_overlap.1 dbBase 0 "nodev" true (by decide),
   program_guide_device_check_and_day_overlap.2 dbG 0 "d1" true resG
     (by decide) (by decide) (by rfl) rowG (by decide)⟩

end NepalIndirex
